import Mathlib

/-
Verification development for the gemini-ox client SDK.

The definitions below are a shallow embedding of the Rust sources:
  * src/messages/message.rs : conversation data model (Content, Part, FunctionCall, ...)
  * src/messages/tools.rs   : tool registry, dispatch, type-keyed ToolContext
  * src/messages/mod.rs     : response model, accessors and the SSE stream decoder
  * src/lib.rs              : error taxonomy (ApiRequestError)

JSON values (serde_json::Value) are modelled by the inductive `Json`;
numbers are modelled as integers (no claim under consideration involves
floating point literals).  Rust's HashMap is modelled as an association
list with insert-replaces semantics; iteration order of the model is the
list order (HashMap order is unspecified, and no claim depends on it).
Panicking operations (indexing `candidates[0]`) are modelled as Option.
-/

namespace GOx

/-- Model of serde_json::Value.  Numbers are restricted to integers. -/
inductive Json where
  | null : Json
  | bool (b : Bool) : Json
  | num (n : Int) : Json
  | str (s : String) : Json
  | arr (elems : List Json) : Json
  | obj (fields : List (String × Json)) : Json

/-- Association-list insert with HashMap semantics: replace the entry with
an equal key if present, otherwise append a new entry. -/
def assocInsert {κ α : Type} [DecidableEq κ] : List (κ × α) → κ → α → List (κ × α)
  | [], k, v => [(k, v)]
  | (k', v') :: rest, k, v =>
      if k' = k then (k, v) :: rest else (k', v') :: assocInsert rest k v

/-- Association-list lookup (HashMap::get). -/
def assocFind {κ α : Type} [DecidableEq κ] : List (κ × α) → κ → Option α
  | [], _ => none
  | (k', v') :: rest, k => if k' = k then some v' else assocFind rest k

theorem assocFind_assocInsert_same {κ α : Type} [DecidableEq κ]
    (l : List (κ × α)) (k : κ) (v : α) :
    assocFind (assocInsert l k v) k = some v := by
  induction l with
  | nil => simp [assocInsert, assocFind]
  | cons hd tl ih =>
      obtain ⟨k', v'⟩ := hd
      by_cases h : k' = k
      · simp [assocInsert, assocFind, h]
      · simp [assocInsert, assocFind, h, ih]

theorem assocFind_assocInsert_ne {κ α : Type} [DecidableEq κ]
    (l : List (κ × α)) (k k' : κ) (v : α) (h : k' ≠ k) :
    assocFind (assocInsert l k v) k' = assocFind l k' := by
  have hne : ¬k = k' := fun hh => h hh.symm
  induction l with
  | nil => simp [assocInsert, assocFind, hne]
  | cons hd tl ih =>
      obtain ⟨k0, v0⟩ := hd
      by_cases h0 : k0 = k
      · subst h0
        simp [assocInsert, assocFind, hne]
      · simp [assocInsert, assocFind, h0, ih]

theorem assocFind_mem {κ α : Type} [DecidableEq κ]
    {l : List (κ × α)} {k : κ} {v : α} (h : assocFind l k = some v) :
    (k, v) ∈ l := by
  induction l with
  | nil => simp [assocFind] at h
  | cons hd tl ih =>
      obtain ⟨k0, v0⟩ := hd
      by_cases h0 : k0 = k
      · subst h0
        simp [assocFind] at h
        subst h
        exact List.mem_cons_self _ _
      · simp [assocFind, h0] at h
        exact List.mem_cons_of_mem _ (ih h)

/- ===== message.rs : conversation data model ===== -/

/-- FunctionCall (message.rs): name plus optional JSON args. -/
structure FunctionCall where
  name : String
  args : Option Json

/-- FunctionResponse (message.rs): name plus a JSON response value. -/
structure FunctionResponse where
  name : String
  response : Json

/-- Part (message.rs): one variant of a multi-part Content message. -/
inductive Part where
  | text (t : String) : Part
  | inlineData (mimeType : String) (data : String) : Part
  | functionCall (fc : FunctionCall) : Part
  | functionResponse (fr : FunctionResponse) : Part
  | fileData (mimeType : Option String) (fileUri : String) : Part

/-- Content (message.rs): a role-tagged sequence of parts.  `Parts` is a
newtype over Vec<Part> in the source and is modelled as List Part. -/
inductive Content where
  | user (parts : List Part) : Content
  | model (parts : List Part) : Content

/-- Content::parts (message.rs). -/
def Content.parts : Content → List Part
  | .user ps => ps
  | .model ps => ps

/-- Parts::get_function_calls (message.rs): filter the FunctionCall parts,
preserving order. -/
def partsGetFunctionCalls (ps : List Part) : List FunctionCall :=
  ps.filterMap fun p =>
    match p with
    | .functionCall fc => some fc
    | _ => none

/- ===== tools.rs : ToolContext (type-keyed resource map) ===== -/

/-- Model of Rust type identities (std::any::TypeId) for the resource map.
`mutexTy t` is the type Mutex<t>; base types are drawn from a small
universe sufficient for the stored resources. -/
inductive RustType where
  | i32Ty : RustType
  | strTy : RustType
  | mutexTy (t : RustType) : RustType
deriving DecidableEq

/-- The Rust value carried by a given type identity.  Mutex<t> carries a
value of t (the lock itself has no data content in this pure model). -/
def RustData : RustType → Type
  | .i32Ty => Int
  | .strTy => String
  | .mutexTy t => RustData t

/-- A type-erased value (Box/Arc<dyn Any>): its dynamic type plus payload. -/
structure AnyVal where
  ty : RustType
  val : RustData ty

/-- dyn Any::downcast_ref::<T>: succeeds exactly when the dynamic type of
the erased value equals the requested type. -/
def downcastRef (t : RustType) (a : AnyVal) : Option (RustData t) :=
  if h : a.ty = t then some (h ▸ a.val) else none

/-- ToolContext (tools.rs): map from TypeId to Arc<dyn Any + Send + Sync>. -/
def ToolContext : Type := List (RustType × AnyVal)

/-- A fresh, empty ToolContext (ToolContext::default). -/
def ToolContext.default : ToolContext := []

/-- ToolContext::push_resource (tools.rs line 166): inserts
`Arc::new(Mutex::new(resource))` under the key `TypeId::of::<T>()`.
Note the stored Any therefore has dynamic type Mutex<T>, not T. -/
def ToolContext.push_resource (cx : ToolContext) (t : RustType) (v : RustData t) :
    ToolContext :=
  assocInsert cx t ⟨.mutexTy t, v⟩

/-- ToolContext::get_resource (tools.rs line 180): looks up
`TypeId::of::<T>()` and then `downcast_ref::<T>()` on the stored Any. -/
def ToolContext.get_resource (cx : ToolContext) (t : RustType) : Option (RustData t) :=
  (assocFind cx t).bind (downcastRef t)

/- ===== tools.rs : Tool, handlers, Tools registry ===== -/

/-- HandlerError (tools.rs): a single error string. -/
structure HandlerError where
  error : String

/-- serde_json::to_value of a HandlerError (derived Serialize over the one
field `error`), as used by Tool::invoke on the failure path. -/
def HandlerError.toJson (e : HandlerError) : Json :=
  .obj [("error", .str e.error)]

/-- Tool (tools.rs): name, description, derived parameter schema, and an
optional type-erased handler. -/
structure Tool where
  name : String
  description : String
  parameters : Json
  handler : Option (Json → ToolContext → Except HandlerError Json)

/-- Tool::invoke (tools.rs lines 42-62): if a handler is present, run it;
a handler success is wrapped as a FunctionResponse with the tool's name,
a handler error is serialized into the response the same way.  A tool
without a handler yields no response at all. -/
def Tool.invoke (t : Tool) (input : Json) (cx : ToolContext) :
    Option FunctionResponse :=
  match t.handler with
  | some h =>
      match h input cx with
      | .ok response => some ⟨t.name, response⟩
      | .error err => some ⟨t.name, err.toJson⟩
  | none => none

/-- ErasedToolHandler for ToolHandlerWrapper (tools.rs lines 341-360):
deserialize the input into the concrete props type, run the typed
handler, serialize the result; both (de)serialization failures are mapped
to HandlerError with the serializer's message. -/
def wrapperCall {α β : Type}
    (deserializeInput : Json → Except String α)
    (handler : α → ToolContext → Except HandlerError β)
    (serializeOutput : β → Except String Json)
    (input : Json) (cx : ToolContext) : Except HandlerError Json :=
  match deserializeInput input with
  | .error e => .error ⟨e⟩
  | .ok props =>
      match handler props cx with
      | .error e => .error e
      | .ok r =>
          match serializeOutput r with
          | .error e => .error ⟨e⟩
          | .ok v => .ok v

/-- Tools (tools.rs): registry mapping tool names to tools, plus the
shared ToolContext. -/
structure Tools where
  tools : List (String × Tool)
  context : ToolContext

/-- Tools::default. -/
def Tools.default : Tools := ⟨[], ToolContext.default⟩

/-- Tools::add (tools.rs lines 232-235): HashMap::insert keyed by the
tool's own name (silently replacing an existing entry). -/
def Tools.add (ts : Tools) (t : Tool) : Tools :=
  { ts with tools := assocInsert ts.tools t.name t }

/-- Tools::get_tool (tools.rs lines 244-246): exact HashMap lookup. -/
def Tools.get_tool (ts : Tools) (toolName : String) : Option Tool :=
  assocFind ts.tools toolName

/-- Tools::is_empty (tools.rs). -/
def Tools.is_empty (ts : Tools) : Bool :=
  ts.tools.isEmpty

/-- Tools::invoke (tools.rs lines 249-262): look the call's name up; if
found, invoke the tool on the call's args — an absent `args` is replaced
by `serde_json::Value::Null` (`unwrap_or(&Value::Null)`) — with the
registry's context; if the name is not registered, return None. -/
def Tools.invoke (ts : Tools) (fc : FunctionCall) : Option FunctionResponse :=
  match ts.get_tool fc.name with
  | some t => t.invoke (fc.args.getD .null) ts.context
  | none => none

/-- Registry well-formedness: every map entry's key is the stored tool's
name.  This holds for every registry built through Tools::add. -/
def Tools.WF (ts : Tools) : Prop :=
  ∀ p ∈ ts.tools, p.1 = p.2.name

theorem Tools.WF_default : Tools.default.WF := by
  intro p hp
  simp [Tools.default] at hp

theorem Tools.WF_add {ts : Tools} (h : ts.WF) (t : Tool) : (ts.add t).WF := by
  intro p hp
  have : ∀ l : List (String × Tool), (∀ q ∈ l, q.1 = q.2.name) →
      p ∈ assocInsert l t.name t → p.1 = p.2.name := by
    intro l
    induction l with
    | nil =>
        intro _ hmem
        simp [assocInsert] at hmem
        subst hmem
        rfl
    | cons hd tl ih =>
        intro hall hmem
        obtain ⟨k0, v0⟩ := hd
        by_cases h0 : k0 = t.name
        · simp [assocInsert, h0] at hmem
          rcases hmem with hmem | hmem
          · subst hmem; rfl
          · exact hall _ (List.mem_cons_of_mem _ hmem)
        · simp [assocInsert, h0] at hmem
          rcases hmem with hmem | hmem
          · subst hmem
            exact hall _ (List.mem_cons_self _ _)
          · exact ih (fun q hq => hall _ (List.mem_cons_of_mem _ hq)) hmem
  exact this ts.tools h hp

/-- serde serialization of a Tool (derived Serialize on tools.rs lines
14-21): fields name, description, parameters; the handler is skipped. -/
def Tool.toJson (t : Tool) : Json :=
  .obj [("name", .str t.name), ("description", .str t.description),
        ("parameters", t.parameters)]

/-- Serialize for Tools (tools.rs lines 214-229): a helper struct with the
single field `function_declarations` holding the registry's tools.  The
container attribute on that struct is `#[serde(rename = "camelCase")]`,
which renames the *struct* (invisible in JSON) and leaves the field name
in snake_case, so the emitted key is literally "function_declarations". -/
def Tools.serializeJson (ts : Tools) : Json :=
  .obj [("function_declarations", .arr (ts.tools.map fun p => p.2.toJson))]

/- ===== lib.rs : error taxonomy ===== -/

/-- ApiRequestError (lib.rs lines 471-490).  The wrapped reqwest and
serde_json errors are modelled by their message strings. -/
inductive ApiRequestError where
  | reqwestError (msg : String) : ApiRequestError
  | serdeError (msg : String) : ApiRequestError
  | invalidRequestError (code : Option String) (details : Json) (message : String)
      (status : Option String) : ApiRequestError
  | unexpectedResponse (response : String) : ApiRequestError
  | invalidEventData (data : String) : ApiRequestError
  | rateLimit : ApiRequestError

/- ===== mod.rs / lib.rs : response data model ===== -/

/-- HarmCategory (lib.rs). -/
inductive HarmCategory where
  | harmCategoryUnspecified | harmCategoryDerogatory | harmCategoryToxicity
  | harmCategoryViolence | harmCategorySexual | harmCategoryMedical
  | harmCategoryDangerous | harmCategoryHarassment | harmCategoryHateSpeech
  | harmCategorySexuallyExplicit | harmCategoryDangerousContent

/-- SafetyRating (lib.rs): category plus probability string. -/
structure SafetyRating where
  category : HarmCategory
  probability : String

/-- BlockReason (mod.rs). -/
inductive BlockReason where
  | blockReasonUnspecified | safety | other

/-- PromptFeedback (mod.rs). -/
structure PromptFeedback where
  blockReason : Option BlockReason
  safetyRatings : List SafetyRating

/-- UsageMetadata (mod.rs). -/
structure UsageMetadata where
  promptTokenCount : Nat
  candidatesTokenCount : Option Nat
  totalTokenCount : Nat

/-- ResponseCandidate (mod.rs lines 271-276). -/
structure ResponseCandidate where
  content : Content
  finishReason : String
  index : Nat
  safetyRatings : Option (List SafetyRating)

/-- GenerateContentResponse (mod.rs lines 221-225). -/
structure GenerateContentResponse where
  candidates : List ResponseCandidate
  promptFeedback : Option PromptFeedback
  usageMetadata : Option UsageMetadata

/-- GenerateContentResponse::content (mod.rs lines 229-231):
`candidates.first().map(|c| &c.content)` — total, None on no candidates. -/
def GenerateContentResponse.content (r : GenerateContentResponse) : Option Content :=
  r.candidates.head?.map (fun c => c.content)

/-- GenerateContentResponse::get_function_calls (mod.rs lines 233-237):
function calls of the first candidate, or the empty list — total. -/
def GenerateContentResponse.get_function_calls (r : GenerateContentResponse) :
    List FunctionCall :=
  (r.content.map (fun c => partsGetFunctionCalls c.parts)).getD []

/-- From<GenerateContentResponse> for Content (mod.rs lines 256-261): takes
`candidates[0]` (a panic when no candidate exists, modelled as Option) and
rebuilds a Model-role turn from its parts. -/
def Content.fromResponse (r : GenerateContentResponse) : Option Content :=
  r.candidates.head?.map (fun c => Content.model c.content.parts)

/-- From<GenerateContentResponse> for Parts (mod.rs lines 263-267): the
parts of `candidates[0]` (a panic when no candidate exists, modelled as
Option). -/
def partsFromResponse (r : GenerateContentResponse) : Option (List Part) :=
  r.candidates.head?.map (fun c => c.content.parts)

/- ===== serde_json text parser (model of serde_json::from_str's syntax
layer).  Fuel-based structural recursion so that the kernel can evaluate
it; floating point literals and \u escapes are not modelled (no claim
involves them). ===== -/

/-- Skip JSON whitespace. -/
def skipWs : List Char → List Char
  | [] => []
  | c :: cs => if c = ' ' ∨ c = '\n' ∨ c = '\t' ∨ c = '\r' then skipWs cs else c :: cs

/-- Parse the body of a string literal after the opening quote. -/
def parseStrBody : Nat → List Char → List Char → Option (String × List Char)
  | 0, _, _ => none
  | _ + 1, [], _ => none
  | f + 1, c :: rest, acc =>
      if c = '"' then some (String.mk acc.reverse, rest)
      else if c = '\\' then
        match rest with
        | [] => none
        | e :: rest2 =>
            if e = '"' then parseStrBody f rest2 ('"' :: acc)
            else if e = '\\' then parseStrBody f rest2 ('\\' :: acc)
            else if e = '/' then parseStrBody f rest2 ('/' :: acc)
            else if e = 'n' then parseStrBody f rest2 ('\n' :: acc)
            else if e = 't' then parseStrBody f rest2 ('\t' :: acc)
            else if e = 'r' then parseStrBody f rest2 ('\r' :: acc)
            else none
      else parseStrBody f rest (c :: acc)

/-- Split a leading run of decimal digits from the input. -/
def takeDigits : List Char → List Char × List Char
  | [] => ([], [])
  | c :: cs =>
      if c.isDigit then
        let p := takeDigits cs
        (c :: p.1, p.2)
      else ([], c :: cs)

/-- Numeric value of a digit run. -/
def digitsVal (ds : List Char) : Nat :=
  ds.foldl (fun acc c => acc * 10 + (c.toNat - 48)) 0

/-- What the parser is currently asked to produce: a single value, the
element list of an array (first element vs. after a comma), or the member
list of an object. -/
inductive PMode where
  | one : PMode
  | elemsFirst : PMode
  | elemsNext : PMode
  | fieldsFirst : PMode
  | fieldsNext : PMode

/-- Parser results for the three modes. -/
inductive PRes where
  | val (v : Json) : PRes
  | elems (vs : List Json) : PRes
  | fields (kvs : List (String × Json)) : PRes

/-- The JSON text parser: one fueled function covering values, array
elements and object members. -/
def parseA : Nat → PMode → List Char → Option (PRes × List Char)
  | 0, _, _ => none
  | fuel + 1, .one, cs =>
      match skipWs cs with
      | [] => none
      | c :: rest =>
          if c = 'n' then
            match rest with
            | 'u' :: 'l' :: 'l' :: rest2 => some (.val .null, rest2)
            | _ => none
          else if c = 't' then
            match rest with
            | 'r' :: 'u' :: 'e' :: rest2 => some (.val (.bool true), rest2)
            | _ => none
          else if c = 'f' then
            match rest with
            | 'a' :: 'l' :: 's' :: 'e' :: rest2 => some (.val (.bool false), rest2)
            | _ => none
          else if c = '"' then
            match parseStrBody fuel rest [] with
            | some (s, rest2) => some (.val (.str s), rest2)
            | none => none
          else if c = '-' then
            match takeDigits rest with
            | ([], _) => none
            | (ds, rest2) => some (.val (.num (-(digitsVal ds : Int))), rest2)
          else if c.isDigit then
            match takeDigits (c :: rest) with
            | (ds, rest2) => some (.val (.num (digitsVal ds : Int)), rest2)
          else if c = '\x5b' then
            match parseA fuel .elemsFirst rest with
            | some (.elems vs, rest2) => some (.val (.arr vs), rest2)
            | _ => none
          else if c = '\x7b' then
            match parseA fuel .fieldsFirst rest with
            | some (.fields kvs, rest2) => some (.val (.obj kvs), rest2)
            | _ => none
          else none
  | fuel + 1, .elemsFirst, cs =>
      match skipWs cs with
      | '\x5d' :: rest => some (.elems [], rest)
      | cs2 =>
          match parseA fuel .one cs2 with
          | some (.val v, rest) =>
              (match skipWs rest with
               | ',' :: rest2 =>
                   match parseA fuel .elemsNext rest2 with
                   | some (.elems vs, rest3) => some (.elems (v :: vs), rest3)
                   | _ => none
               | '\x5d' :: rest2 => some (.elems [v], rest2)
               | _ => none)
          | _ => none
  | fuel + 1, .elemsNext, cs =>
      match parseA fuel .one cs with
      | some (.val v, rest) =>
          (match skipWs rest with
           | ',' :: rest2 =>
               match parseA fuel .elemsNext rest2 with
               | some (.elems vs, rest3) => some (.elems (v :: vs), rest3)
               | _ => none
           | '\x5d' :: rest2 => some (.elems [v], rest2)
           | _ => none)
      | _ => none
  | fuel + 1, .fieldsFirst, cs =>
      match skipWs cs with
      | '\x7d' :: rest => some (.fields [], rest)
      | '"' :: rest =>
          (match parseStrBody fuel rest [] with
           | some (key, rest2) =>
               (match skipWs rest2 with
                | ':' :: rest3 =>
                    (match parseA fuel .one rest3 with
                     | some (.val v, rest4) =>
                         (match skipWs rest4 with
                          | ',' :: rest5 =>
                              match parseA fuel .fieldsNext rest5 with
                              | some (.fields kvs, rest6) =>
                                  some (.fields ((key, v) :: kvs), rest6)
                              | _ => none
                          | '\x7d' :: rest5 => some (.fields [(key, v)], rest5)
                          | _ => none)
                     | _ => none)
                | _ => none)
           | none => none)
      | _ => none
  | fuel + 1, .fieldsNext, cs =>
      match skipWs cs with
      | '"' :: rest =>
          (match parseStrBody fuel rest [] with
           | some (key, rest2) =>
               (match skipWs rest2 with
                | ':' :: rest3 =>
                    (match parseA fuel .one rest3 with
                     | some (.val v, rest4) =>
                         (match skipWs rest4 with
                          | ',' :: rest5 =>
                              match parseA fuel .fieldsNext rest5 with
                              | some (.fields kvs, rest6) =>
                                  some (.fields ((key, v) :: kvs), rest6)
                              | _ => none
                          | '\x7d' :: rest5 => some (.fields [(key, v)], rest5)
                          | _ => none)
                     | _ => none)
                | _ => none)
           | none => none)
      | _ => none

/-- Parse a whole JSON document (value plus trailing whitespace only). -/
def parseJsonText (s : String) : Option Json :=
  match parseA (2 * s.data.length + 2) .one s.data with
  | some (.val v, rest) => if (skipWs rest).isEmpty then some v else none
  | _ => none

/- ===== serde deserialization (model of the derived Deserialize impls).
Error strings follow serde's message shapes; the exact wording of the
wrapped serde messages is not relied upon by any theorem below. ===== -/

/-- Rendering of serde's Unexpected for error messages. -/
def serdeUnexpected : Json → String
  | .null => "null"
  | .bool b => if b then "boolean `true`" else "boolean `false`"
  | .num n => "integer `" ++ toString n ++ "`"
  | .str s => "string \"" ++ s ++ "\""
  | .arr _ => "sequence"
  | .obj _ => "map"

/-- Deserialize a JSON string. -/
def decodeString : Json → Except String String
  | .str s => .ok s
  | v => .error ("invalid type: " ++ serdeUnexpected v ++ ", expected a string")

/-- Deserialize a u32. -/
def decodeU32 : Json → Except String Nat
  | .num n =>
      if 0 ≤ n ∧ n < 4294967296 then .ok n.toNat
      else .error ("invalid value: " ++ serdeUnexpected (.num n) ++ ", expected u32")
  | v => .error ("invalid type: " ++ serdeUnexpected v ++ ", expected u32")

/-- Sequence a fallible decoder over a list (Vec<T> deserialization). -/
def mapExcept {α β : Type} (f : α → Except String β) : List α → Except String (List β)
  | [] => .ok []
  | x :: xs =>
      match f x with
      | .error e => .error e
      | .ok y =>
          match mapExcept f xs with
          | .error e => .error e
          | .ok ys => .ok (y :: ys)

/-- Deserialize a Vec<T>. -/
def decodeList {α : Type} (dec : Json → Except String α) : Json → Except String (List α)
  | .arr es => mapExcept dec es
  | v => .error ("invalid type: " ++ serdeUnexpected v ++ ", expected a sequence")

/-- Deserialize an Option<T> struct field: an absent field and JSON null
both give None. -/
def decodeOptField {α : Type} (fields : List (String × Json)) (key : String)
    (dec : Json → Except String α) : Except String (Option α) :=
  match assocFind fields key with
  | none => .ok none
  | some .null => .ok none
  | some v =>
      match dec v with
      | .error e => .error e
      | .ok a => .ok (some a)

/-- Deserialize a required struct field. -/
def decodeReqField {α : Type} (fields : List (String × Json)) (key : String)
    (dec : Json → Except String α) : Except String α :=
  match assocFind fields key with
  | none => .error ("missing field `" ++ key ++ "`")
  | some v => dec v

/-- HarmCategory deserialization (SCREAMING_SNAKE_CASE variant names). -/
def HarmCategory.fromJson (v : Json) : Except String HarmCategory :=
  match v with
  | .str s =>
      if s = "HARM_CATEGORY_UNSPECIFIED" then .ok .harmCategoryUnspecified
      else if s = "HARM_CATEGORY_DEROGATORY" then .ok .harmCategoryDerogatory
      else if s = "HARM_CATEGORY_TOXICITY" then .ok .harmCategoryToxicity
      else if s = "HARM_CATEGORY_VIOLENCE" then .ok .harmCategoryViolence
      else if s = "HARM_CATEGORY_SEXUAL" then .ok .harmCategorySexual
      else if s = "HARM_CATEGORY_MEDICAL" then .ok .harmCategoryMedical
      else if s = "HARM_CATEGORY_DANGEROUS" then .ok .harmCategoryDangerous
      else if s = "HARM_CATEGORY_HARASSMENT" then .ok .harmCategoryHarassment
      else if s = "HARM_CATEGORY_HATE_SPEECH" then .ok .harmCategoryHateSpeech
      else if s = "HARM_CATEGORY_SEXUALLY_EXPLICIT" then .ok .harmCategorySexuallyExplicit
      else if s = "HARM_CATEGORY_DANGEROUS_CONTENT" then .ok .harmCategoryDangerousContent
      else .error ("unknown variant `" ++ s ++ "`")
  | v => .error ("invalid type: " ++ serdeUnexpected v ++ ", expected a string")

/-- SafetyRating deserialization. -/
def SafetyRating.fromJson (v : Json) : Except String SafetyRating :=
  match v with
  | .obj fields =>
      (match decodeReqField fields "category" HarmCategory.fromJson with
       | .error e => .error e
       | .ok cat =>
           match decodeReqField fields "probability" decodeString with
           | .error e => .error e
           | .ok p => .ok ⟨cat, p⟩)
  | v => .error ("invalid type: " ++ serdeUnexpected v ++ ", expected struct SafetyRating")

/-- BlockReason deserialization. -/
def BlockReason.fromJson (v : Json) : Except String BlockReason :=
  match v with
  | .str s =>
      if s = "BLOCK_REASON_UNSPECIFIED" then .ok .blockReasonUnspecified
      else if s = "SAFETY" then .ok .safety
      else if s = "OTHER" then .ok .other
      else .error ("unknown variant `" ++ s ++ "`")
  | v => .error ("invalid type: " ++ serdeUnexpected v ++ ", expected a string")

/-- PromptFeedback deserialization (camelCase field names). -/
def PromptFeedback.fromJson (v : Json) : Except String PromptFeedback :=
  match v with
  | .obj fields =>
      (match decodeOptField fields "blockReason" BlockReason.fromJson with
       | .error e => .error e
       | .ok br =>
           match decodeReqField fields "safetyRatings" (decodeList SafetyRating.fromJson) with
           | .error e => .error e
           | .ok sr => .ok ⟨br, sr⟩)
  | v => .error ("invalid type: " ++ serdeUnexpected v ++ ", expected struct PromptFeedback")

/-- UsageMetadata deserialization (camelCase field names). -/
def UsageMetadata.fromJson (v : Json) : Except String UsageMetadata :=
  match v with
  | .obj fields =>
      (match decodeReqField fields "promptTokenCount" decodeU32 with
       | .error e => .error e
       | .ok p =>
           match decodeOptField fields "candidatesTokenCount" decodeU32 with
           | .error e => .error e
           | .ok c =>
               match decodeReqField fields "totalTokenCount" decodeU32 with
               | .error e => .error e
               | .ok t => .ok ⟨p, c, t⟩)
  | v => .error ("invalid type: " ++ serdeUnexpected v ++ ", expected struct UsageMetadata")

/-- FunctionCall deserialization: required `name`, Option `args`. -/
def FunctionCall.fromJson (v : Json) : Except String FunctionCall :=
  match v with
  | .obj fields =>
      (match decodeReqField fields "name" decodeString with
       | .error e => .error e
       | .ok n =>
           match decodeOptField fields "args" (fun j => .ok j) with
           | .error e => .error e
           | .ok a => .ok ⟨n, a⟩)
  | v => .error ("invalid type: " ++ serdeUnexpected v ++ ", expected struct FunctionCall")

/-- FunctionResponse deserialization: required `name` and `response`. -/
def FunctionResponse.fromJson (v : Json) : Except String FunctionResponse :=
  match v with
  | .obj fields =>
      (match decodeReqField fields "name" decodeString with
       | .error e => .error e
       | .ok n =>
           match decodeReqField fields "response" (fun j => .ok j) with
           | .error e => .error e
           | .ok rsp => .ok ⟨n, rsp⟩)
  | v => .error ("invalid type: " ++ serdeUnexpected v ++ ", expected struct FunctionResponse")

/-- Part deserialization: externally tagged enum with camelCase variant
keys (a map with exactly one entry). -/
def Part.fromJson (v : Json) : Except String Part :=
  match v with
  | .obj [(k, pv)] =>
      if k = "text" then
        match decodeString pv with
        | .error e => .error e
        | .ok t => .ok (.text t)
      else if k = "inlineData" then
        match pv with
        | .obj fields =>
            (match decodeReqField fields "mimeType" decodeString with
             | .error e => .error e
             | .ok m =>
                 match decodeReqField fields "data" decodeString with
                 | .error e => .error e
                 | .ok d => .ok (.inlineData m d))
        | pv => .error ("invalid type: " ++ serdeUnexpected pv ++ ", expected struct Blob")
      else if k = "functionCall" then
        match FunctionCall.fromJson pv with
        | .error e => .error e
        | .ok fc => .ok (.functionCall fc)
      else if k = "functionResponse" then
        match FunctionResponse.fromJson pv with
        | .error e => .error e
        | .ok fr => .ok (.functionResponse fr)
      else if k = "fileData" then
        match pv with
        | .obj fields =>
            (match decodeOptField fields "mimeType" decodeString with
             | .error e => .error e
             | .ok m =>
                 match decodeReqField fields "fileUri" decodeString with
                 | .error e => .error e
                 | .ok u => .ok (.fileData m u))
        | pv => .error ("invalid type: " ++ serdeUnexpected pv ++ ", expected struct FileData")
      else .error ("unknown variant `" ++ k ++ "`")
  | .obj _ => .error "expected a map with a single key"
  | v => .error ("invalid type: " ++ serdeUnexpected v ++ ", expected enum Part")

/-- Content deserialization: internally tagged by `role` with camelCase
variant names; the parts come from the same map. -/
def Content.fromJson (v : Json) : Except String Content :=
  match v with
  | .obj fields =>
      (match decodeReqField fields "role" decodeString with
       | .error e => .error e
       | .ok role =>
           if role = "user" then
             match decodeReqField fields "parts" (decodeList Part.fromJson) with
             | .error e => .error e
             | .ok ps => .ok (.user ps)
           else if role = "model" then
             match decodeReqField fields "parts" (decodeList Part.fromJson) with
             | .error e => .error e
             | .ok ps => .ok (.model ps)
           else .error ("unknown variant `" ++ role ++ "`"))
  | v => .error ("invalid type: " ++ serdeUnexpected v ++ ", expected enum Content")

/-- ResponseCandidate deserialization (camelCase field names). -/
def ResponseCandidate.fromJson (v : Json) : Except String ResponseCandidate :=
  match v with
  | .obj fields =>
      (match decodeReqField fields "content" Content.fromJson with
       | .error e => .error e
       | .ok c =>
           match decodeReqField fields "finishReason" decodeString with
           | .error e => .error e
           | .ok fr =>
               match decodeReqField fields "index" decodeU32 with
               | .error e => .error e
               | .ok i =>
                   match decodeOptField fields "safetyRatings"
                       (decodeList SafetyRating.fromJson) with
                   | .error e => .error e
                   | .ok sr => .ok ⟨c, fr, i, sr⟩)
  | v => .error ("invalid type: " ++ serdeUnexpected v ++ ", expected struct ResponseCandidate")

/-- GenerateContentResponse deserialization (camelCase field names). -/
def GenerateContentResponse.fromJson (v : Json) :
    Except String GenerateContentResponse :=
  match v with
  | .obj fields =>
      (match decodeReqField fields "candidates" (decodeList ResponseCandidate.fromJson) with
       | .error e => .error e
       | .ok cands =>
           match decodeOptField fields "promptFeedback" PromptFeedback.fromJson with
           | .error e => .error e
           | .ok pf =>
               match decodeOptField fields "usageMetadata" UsageMetadata.fromJson with
               | .error e => .error e
               | .ok um => .ok ⟨cands, pf, um⟩)
  | v => .error ("invalid type: " ++ serdeUnexpected v ++
        ", expected struct GenerateContentResponse")

/-- serde_json::from_str::<GenerateContentResponse>: parse the text, then
deserialize the value. -/
def fromStrGenerateContentResponse (s : String) :
    Except String GenerateContentResponse :=
  match parseJsonText s with
  | none => .error "invalid JSON"
  | some v => GenerateContentResponse.fromJson v

/- ===== mod.rs : the SSE stream decoder (lines 193-211) ===== -/

/-- Does the char list `s` begin with the char list `lead`. -/
def charsLead : List Char → List Char → Bool
  | [], _ => true
  | _ :: _, [] => false
  | p :: ps, c :: cs => p = c && charsLead ps cs

/-- Rust str::starts_with. -/
def strStarts (s pat : String) : Bool :=
  charsLead pat.data s.data

/-- Repeatedly strip a leading pattern (fueled). -/
def stripLeadRep : Nat → List Char → List Char → List Char
  | 0, _, s => s
  | f + 1, pat, s =>
      if pat ≠ [] ∧ charsLead pat s then stripLeadRep f pat (s.drop pat.length)
      else s

/-- Rust str::trim_start_matches: removes every repetition of the leading
pattern. -/
def trimStartMatchesStr (s pat : String) : String :=
  String.mk (stripLeadRep s.data.length pat.data s.data)

/-- The per-chunk closure of GenerateContentRequest::stream (mod.rs lines
193-211): an empty chunk is skipped; a chunk starting with "data: " has
the prefix stripped and the remainder parsed as a GenerateContentResponse,
a parse failure becoming ApiRequestError::SerdeError; any other chunk
yields ApiRequestError::InvalidEventData carrying the raw chunk text.
Each chunk is handled in isolation — nothing is buffered across chunks. -/
def decodeChunk (data : String) : Option (Except ApiRequestError GenerateContentResponse) :=
  if data = "" then none
  else if strStarts data ("data: ") then
    match fromStrGenerateContentResponse (trimStartMatchesStr data ("data: ")) with
    | .ok r => some (.ok r)
    | .error e => some (.error (.serdeError e))
  else some (.error (.invalidEventData data))

/-- The stream decoder over a list of byte chunks (stream.filter_map). -/
def decodeStream (chunks : List String) :
    List (Except ApiRequestError GenerateContentResponse) :=
  chunks.filterMap decodeChunk

/- ===== concrete tools (from the tools.rs test module, plus a trivial
echo tool over serde_json::Value used to observe dispatch inputs) ===== -/

/-- TestParams (tools.rs test module): { foo: String, bar: i32 }. -/
structure TestParams where
  foo : String
  bar : Int

/-- Deserialize an i32. -/
def decodeI32 : Json → Except String Int
  | .num n =>
      if -2147483648 ≤ n ∧ n < 2147483648 then .ok n
      else .error ("invalid value: " ++ serdeUnexpected (.num n) ++ ", expected i32")
  | v => .error ("invalid type: " ++ serdeUnexpected v ++ ", expected i32")

/-- serde deserialization of TestParams (derived impl). -/
def TestParams.deserialize (v : Json) : Except String TestParams :=
  match v with
  | .obj fields =>
      (match decodeReqField fields "foo" decodeString with
       | .error e => .error e
       | .ok f =>
           match decodeReqField fields "bar" decodeI32 with
           | .error e => .error e
           | .ok b => .ok ⟨f, b⟩)
  | v => .error ("invalid type: " ++ serdeUnexpected v ++ ", expected struct TestParams")

/-- TestResponse (tools.rs test module): { message: String }. -/
structure TestResponse where
  message : String

/-- serde serialization of TestResponse (derived impl; total on this type). -/
def TestResponse.serialize (r : TestResponse) : Except String Json :=
  .ok (.obj [("message", .str r.message)])

/-- test_tool_handler (tools.rs test module). -/
def testToolHandler (p : TestParams) (_ : ToolContext) : Except HandlerError TestResponse :=
  .ok ⟨"foo: " ++ p.foo ++ ", bar: " ++ toString p.bar⟩

/-- The openapi3 schema schemars derives for TestParams (title removed). -/
def testParamsSchema : Json :=
  .obj [("type", .str "object"),
        ("properties", .obj
          [("foo", .obj [("type", .str "string")]),
           ("bar", .obj [("type", .str "integer"), ("format", .str "int32")])]),
        ("required", .arr [.str "bar", .str "foo"])]

/-- The test_tool built by Tool::builder in the tools.rs tests: its erased
handler is ToolHandlerWrapper over TestParams/TestResponse. -/
def testTool : Tool :=
  ⟨"test_tool", "This is a test tool.", testParamsSchema,
   some (wrapperCall TestParams.deserialize testToolHandler TestResponse.serialize)⟩

/-- serde deserialization of serde_json::Value: the identity, it accepts
every JSON value. -/
def valueDeserialize (v : Json) : Except String Json := .ok v

/-- serde serialization of serde_json::Value: the identity. -/
def valueSerialize (v : Json) : Except String Json := .ok v

/-- A host-supplied tool whose input type is serde_json::Value and whose
handler echoes its input, making the exact value dispatch feeds into the
handler observable in the response. -/
def echoTool : Tool :=
  ⟨"echo", "echoes its raw input", .obj [("type", .str "object")],
   some (wrapperCall valueDeserialize (fun v _ => .ok v) valueSerialize)⟩

/-- A registry holding only the echo tool. -/
def echoTools : Tools := Tools.default.add echoTool

/-- A second tool registered under the same name as echoTool. -/
def echoToolV2 : Tool :=
  ⟨"echo", "second registration under the same name", .obj [("type", .str "object")], none⟩

/- ===== Conversation orchestrator ===== -/

/-- Modelled from the spec: the error surfaced by the conversation
orchestrator of §4.5, which is not implemented under src/ (src only
contains its collaborators: send/stream, dispatch, and a hand-rolled test
loop).  `loopExceeded` is the fatal iteration-cap failure, a class of its
own, distinct from transport failures. -/
inductive OrchestratorError where
  | loopExceeded : OrchestratorError
  | transportFailure (e : ApiRequestError) : OrchestratorError

/-- Modelled from the spec: the conversation orchestrator of §4.5, which
is not implemented under src/.  Given the generation endpoint (an oracle
from the turn history to a response), a total dispatcher, and the maximum
iteration count, it repeatedly sends the history; a response without
function calls is terminal success; otherwise every call of the first
candidate is dispatched in order, the model turn and a User turn holding
the responses are appended, and the loop continues until the iteration
counter would exceed the cap, at which point LoopExceeded is surfaced. -/
def orchestrate (oracle : List Content → GenerateContentResponse)
    (dispatch : FunctionCall → FunctionResponse) :
    Nat → List Content → Except OrchestratorError GenerateContentResponse
  | 0, history =>
      let resp := oracle history
      if resp.get_function_calls.isEmpty then .ok resp
      else .error .loopExceeded
  | n + 1, history =>
      let resp := oracle history
      let calls := resp.get_function_calls
      if calls.isEmpty then .ok resp
      else
        let modelTurn := Content.model ((resp.content.map Content.parts).getD [])
        let toolTurn := Content.user (calls.map fun c => Part.functionResponse (dispatch c))
        orchestrate oracle dispatch n (history ++ [modelTurn, toolTurn])

/- ===== Claims ===== -/

/-- C1 counterexample: dispatching the call "missing" against an empty
registry yields no FunctionResponse at all (None), not the claimed
response carrying the error text "Tool not found: missing". -/
theorem C1_counterexample :
    Tools.invoke Tools.default ⟨"missing", none⟩ = none ∧
    (none : Option FunctionResponse) ≠
      some ⟨"missing", Json.obj [("error", Json.str ("Tool not found: missing"))]⟩ :=
  ⟨rfl, fun h => Option.noConfusion h⟩

/-- C1 (amended): for every FunctionCall whose name is not registered in
the tool collection, dispatch does not raise (Tools::invoke is total) and
returns None — no error FunctionResponse is constructed. -/
theorem C1_theorem (ts : Tools) (fc : FunctionCall)
    (h : ts.get_tool fc.name = none) : ts.invoke fc = none := by
  simp [Tools.invoke, h]

/-- C1 witness: the amended theorem at the empty registry and the call
named "missing". -/
theorem C1_witness :
    Tools.default.get_tool "missing" = none ∧
    Tools.default.invoke ⟨"missing", none⟩ = none :=
  ⟨rfl, C1_theorem Tools.default ⟨"missing", none⟩ rfl⟩

/-- C2 counterexample: a dispatched FunctionCall with an unregistered name
produces no FunctionResponse (Tools::invoke returns None), refuting that a
response is always produced. -/
theorem C2_counterexample :
    Tools.invoke echoTools ⟨"ghost", none⟩ = none := rfl

/-- C2 (amended): dispatch returns an Option: it yields None when the
call's name is unregistered or when the registered tool carries no
handler; whenever it does produce a response (including argument
deserialization failures and handler failures), the response's name field
equals the call's name verbatim (for a registry built via Tools::add). -/
theorem C2_theorem :
    (∀ (ts : Tools) (fc : FunctionCall) (r : FunctionResponse),
        ts.WF → ts.invoke fc = some r → r.name = fc.name) ∧
    (∀ (ts : Tools) (fc : FunctionCall) (t : Tool),
        ts.get_tool fc.name = some t → t.handler = none → ts.invoke fc = none) := by
  constructor
  · intro ts fc r hwf h
    unfold Tools.invoke at h
    cases hg : ts.get_tool fc.name with
    | none => rw [hg] at h; cases h
    | some t =>
        rw [hg] at h
        have hname : fc.name = t.name := hwf _ (assocFind_mem hg)
        dsimp only at h
        unfold Tool.invoke at h
        cases hh : t.handler with
        | none => rw [hh] at h; cases h
        | some hdl =>
            rw [hh] at h
            dsimp only at h
            cases hcall : hdl (fc.args.getD .null) ts.context with
            | ok response =>
                rw [hcall] at h
                cases h
                exact hname.symm
            | error err =>
                rw [hcall] at h
                cases h
                exact hname.symm
  · intro ts fc t hg hh
    simp [Tools.invoke, hg, Tool.invoke, hh]

/-- C2 witness: both conjuncts at concrete inputs — the echo registry
answers the call "echo" with a response named "echo", and a handler-less
tool registered as "decl" yields None. -/
theorem C2_witness :
    (⟨"echo", Json.str ("hi")⟩ : FunctionResponse).name =
      (⟨"echo", some (Json.str ("hi"))⟩ : FunctionCall).name ∧
    (Tools.default.add ⟨"decl", "declaration only", Json.obj [], none⟩).invoke
      ⟨"decl", none⟩ = none :=
  ⟨C2_theorem.1 echoTools ⟨"echo", some (Json.str ("hi"))⟩ ⟨"echo", Json.str ("hi")⟩
      (Tools.WF_add Tools.WF_default echoTool) rfl,
   C2_theorem.2 (Tools.default.add ⟨"decl", "declaration only", Json.obj [], none⟩)
      ⟨"decl", none⟩ ⟨"decl", "declaration only", Json.obj [], none⟩ rfl rfl⟩

/-- C3 counterexample: dispatching a call with absent args to a tool whose
input type is serde_json::Value (handler echoes its input) returns the
response Json.null — the tool's input was JSON null, not the empty JSON
object the claim asserts. -/
theorem C3_counterexample :
    Tools.invoke echoTools ⟨"echo", none⟩ = some ⟨"echo", Json.null⟩ ∧
    Json.null ≠ Json.obj [] :=
  ⟨rfl, fun h => Json.noConfusion h⟩

/-- C3 (amended): when a FunctionCall's args field is absent, dispatch
supplies JSON null (serde_json::Value::Null) as the tool's input — not an
empty object; when the args do not deserialize into the tool's declared
input shape, dispatch returns (never raises) a FunctionResponse whose
response is the object containing the deserializer's error message under
the "error" key, with no fixed "input deserialization failed" prefix. -/
theorem C3_theorem :
    (∀ (ts : Tools) (fc : FunctionCall), fc.args = none →
        ts.invoke fc = (ts.get_tool fc.name).bind fun t =>
          t.invoke Json.null ts.context) ∧
    (∀ (α β : Type) (dec : Json → Except String α)
        (handler : α → ToolContext → Except HandlerError β)
        (enc : β → Except String Json) (t : Tool) (input : Json)
        (cx : ToolContext) (e : String),
        t.handler = some (wrapperCall dec handler enc) → dec input = .error e →
        t.invoke input cx = some ⟨t.name, Json.obj [("error", Json.str e)]⟩) := by
  constructor
  · intro ts fc hargs
    unfold Tools.invoke
    cases hg : ts.get_tool fc.name with
    | none => rfl
    | some t => simp [hargs]
  · intro α β dec handler enc t input cx e hh hdec
    simp only [Tool.invoke, hh, wrapperCall, hdec, HandlerError.toJson]

/-- C3 witness: both conjuncts at concrete inputs — absent args reach the
echo tool as JSON null, and a string argument fed to test_tool (input
shape TestParams) comes back as an error response carrying serde's own
message. -/
theorem C3_witness :
    Tools.invoke echoTools ⟨"echo", none⟩ =
      (echoTools.get_tool "echo").bind
        (fun t => t.invoke Json.null echoTools.context) ∧
    testTool.invoke (Json.str ("oops")) ToolContext.default =
      some ⟨"test_tool", Json.obj [("error",
        Json.str ("invalid type: string \"oops\", expected struct TestParams"))]⟩ :=
  ⟨C3_theorem.1 echoTools ⟨"echo", none⟩ rfl,
   C3_theorem.2 TestParams TestResponse TestParams.deserialize testToolHandler
      TestResponse.serialize testTool (Json.str ("oops")) ToolContext.default
      ("invalid type: string \"oops\", expected struct TestParams") rfl rfl⟩

/-- Mutex<T> is never the same type as T. -/
theorem mutexTy_ne (t : RustType) : RustType.mutexTy t ≠ t := by
  induction t with
  | i32Ty => intro h; cases h
  | strTy => intro h; cases h
  | mutexTy t ih => intro h; exact ih (by injection h)

/-- C4: evaluation of the code at the failing input.  ToolContext stores a
pushed resource under TypeId::of::<T>() but wraps it as Mutex<T> inside
the Any, while get_resource downcasts the stored Any to T itself — the
downcast can never succeed, so retrieval after a store returns None for
every context, type and value (the claim says it returns Some of the
stored copy). -/
theorem C4_code_eval (cx : ToolContext) (t : RustType) (v : RustData t) :
    (cx.push_resource t v).get_resource t = none := by
  unfold ToolContext.push_resource ToolContext.get_resource
  rw [assocFind_assocInsert_same]
  show downcastRef t ⟨.mutexTy t, v⟩ = none
  unfold downcastRef
  rw [dif_neg]
  exact mutexTy_ne t

/-- C5: evaluation of the code on a one-tool registry.  Serialize for
Tools emits an object whose single key is "function_declarations" — the
helper struct's attribute is `#[serde(rename = "camelCase")]`, which
renames the container instead of camel-casing the field — and that key
differs from the "functionDeclarations" the claim (and the wire format
documented in the code's own comments) requires. -/
theorem C5_code_eval :
    Tools.serializeJson (Tools.default.add testTool) =
      Json.obj [("function_declarations", Json.arr [testTool.toJson])] ∧
    "function_declarations" ≠ "functionDeclarations" :=
  ⟨rfl, by decide⟩

/-- The complete stream frame used to exhibit the missing buffering. -/
def frameC6 : String := "data: \x7b\"candidates\":[]\x7d\n\n"

/-- The first seven bytes of frameC6. -/
def frameC6a : String := "data: \x7b"

/-- The remainder of frameC6 after frameC6a. -/
def frameC6b : String := "\"candidates\":[]\x7d\n\n"

/-- C6: evaluation of the code at the failing input.  The decoder handles
each chunk in isolation: the unsplit frame decodes to exactly one Ok
fragment, but the same frame split after seven bytes decodes to two error
items (a SerdeError for the half-frame "data: \x7b" and an
InvalidEventData for the prefix-less remainder) — not the single
fragment, identical to the unsplit case, that the claim requires. -/
theorem C6_code_eval :
    frameC6a ++ frameC6b = frameC6 ∧
    decodeStream [frameC6] =
      [.ok ⟨[], none, none⟩] ∧
    decodeStream [frameC6a, frameC6b] =
      [.error (.serdeError ("invalid JSON")), .error (.invalidEventData frameC6b)] ∧
    decodeStream [frameC6a, frameC6b] ≠ decodeStream [frameC6] := by
  refine ⟨rfl, rfl, rfl, ?_⟩
  intro h
  have hlen := congrArg List.length h
  rw [show (decodeStream [frameC6a, frameC6b]).length = 2 from rfl,
      show (decodeStream [frameC6]).length = 1 from rfl] at hlen
  exact absurd hlen (by decide)

/-- A syntactically complete frame whose payload is not valid JSON. -/
def frameC7 : String := "data: nope\n\n"

/-- C7 counterexample: a syntactically complete frame whose payload fails
to parse yields ApiRequestError::SerdeError, not the InvalidEventData
error (carrying the raw text) that the claim asserts. -/
theorem C7_counterexample :
    decodeChunk frameC7 = some (.error (.serdeError ("invalid JSON"))) ∧
    decodeChunk frameC7 ≠ some (.error (.invalidEventData frameC7)) := by
  refine ⟨rfl, ?_⟩
  intro h
  rw [show decodeChunk frameC7 = some (.error (.serdeError ("invalid JSON"))) from rfl] at h
  exact ApiRequestError.noConfusion (Except.error.inj (Option.some.inj h))

/-- C7 (amended): a complete "data: "-prefixed frame whose payload fails
to parse as a GenerateContentResponse is reported (not dropped) as a
SerdeError wrapping the parse failure; InvalidEventData — carrying the
raw chunk text — is produced only for nonempty chunks lacking the
"data: " prefix. -/
theorem C7_theorem :
    (∀ (s : String) (e : String), s ≠ "" → strStarts s ("data: ") = true →
        fromStrGenerateContentResponse (trimStartMatchesStr s ("data: ")) = .error e →
        decodeChunk s = some (.error (.serdeError e))) ∧
    (∀ s : String, s ≠ "" → strStarts s ("data: ") = false →
        decodeChunk s = some (.error (.invalidEventData s))) := by
  constructor
  · intro s e hne hlead hparse
    simp [decodeChunk, hne, hlead, hparse]
  · intro s hne hlead
    simp [decodeChunk, hne, hlead]

/-- C7 witness: both conjuncts at concrete chunks — the complete frame
"data: nope\n\n" becomes a SerdeError, and the prefix-less chunk
"event: done" becomes InvalidEventData carrying the raw text. -/
theorem C7_witness :
    decodeChunk frameC7 = some (.error (.serdeError ("invalid JSON"))) ∧
    decodeChunk ("event: done") =
      some (.error (.invalidEventData ("event: done"))) :=
  ⟨C7_theorem.1 frameC7 ("invalid JSON") (by decide) rfl rfl,
   C7_theorem.2 ("event: done") (by decide) rfl⟩

/-- C8: when the generation endpoint answers every history with a response
whose first candidate requests at least one tool call, the orchestrator
(modelled from the spec, §4.5) halts once the configured maximum iteration
count is exhausted and surfaces the fatal loopExceeded error — a
constructor of its own, distinct from transport failures — for every
dispatcher, cap and starting history; being a total function, it can
never loop indefinitely. -/
theorem C8_theorem (oracle : List Content → GenerateContentResponse)
    (dispatch : FunctionCall → FunctionResponse) (maxIterations : Nat)
    (history : List Content)
    (halways : ∀ h, (oracle h).get_function_calls ≠ []) :
    orchestrate oracle dispatch maxIterations history = .error .loopExceeded := by
  induction maxIterations generalizing history with
  | zero =>
      cases hc : (oracle history).get_function_calls with
      | nil => exact absurd hc (halways history)
      | cons a as => simp [orchestrate, hc]
  | succ k ih =>
      cases hc : (oracle history).get_function_calls with
      | nil => exact absurd hc (halways history)
      | cons a as => simp [orchestrate, hc, ih]

/-- A response whose single candidate always requests one tool call. -/
def constCallResp : GenerateContentResponse :=
  ⟨[⟨Content.model [Part.functionCall ⟨"loop_tool", none⟩], "STOP", 0, none⟩],
   none, none⟩

/-- C8 witness: the theorem at a constant always-calling oracle, a trivial
dispatcher, cap 3 and the empty history. -/
theorem C8_witness :
    orchestrate (fun _ => constCallResp) (fun fc => ⟨fc.name, Json.null⟩) 3 [] =
      .error .loopExceeded :=
  C8_theorem (fun _ => constCallResp) (fun fc => ⟨fc.name, Json.null⟩) 3 []
    (fun _ => List.cons_ne_nil _ _)

/-- C9: after Tools::add registers a tool, lookup under its exact name
returns that tool; adding a second tool under the same name silently
replaces the first (Tools::add is total — no error is signalled); and a
lookup under any other (e.g. differently-cased) name is unaffected by the
registration. -/
theorem C9_theorem (ts : Tools) (t1 t2 : Tool) (otherName : String)
    (hname : t2.name = t1.name) (hother : otherName ≠ t1.name) :
    (ts.add t1).get_tool t1.name = some t1 ∧
    ((ts.add t1).add t2).get_tool t1.name = some t2 ∧
    (ts.add t1).get_tool otherName = ts.get_tool otherName := by
  refine ⟨?_, ?_, ?_⟩
  · simp [Tools.add, Tools.get_tool, assocFind_assocInsert_same]
  · simp only [Tools.add, Tools.get_tool, hname]
    exact assocFind_assocInsert_same _ _ _
  · exact assocFind_assocInsert_ne _ _ _ _ hother

/-- C9 witness: the theorem with the echo tool registered twice under the
name "echo", with "Echo" as the unaffected (case-differing) other name. -/
theorem C9_witness :
    (Tools.default.add echoTool).get_tool "echo" = some echoTool ∧
    ((Tools.default.add echoTool).add echoToolV2).get_tool "echo" = some echoToolV2 ∧
    (Tools.default.add echoTool).get_tool "Echo" = Tools.default.get_tool "Echo" :=
  C9_theorem Tools.default echoTool echoToolV2 ("Echo") rfl (by decide)

/-- C10: for a response with an empty candidates list the accessor
content() returns None and get_function_calls() returns the empty list
(both are total), while the From conversions into Content and Parts read
candidate 0 and are defined (modelled as Option: produce Some) exactly
when at least one candidate exists. -/
theorem C10_theorem (r : GenerateContentResponse) :
    (r.candidates = [] →
        r.content = none ∧ r.get_function_calls = [] ∧
        Content.fromResponse r = none ∧ partsFromResponse r = none) ∧
    (∀ c rest, r.candidates = c :: rest →
        Content.fromResponse r = some (Content.model c.content.parts) ∧
        partsFromResponse r = some c.content.parts) := by
  constructor
  · intro h
    refine ⟨?_, ?_, ?_, ?_⟩ <;>
      simp [GenerateContentResponse.content, GenerateContentResponse.get_function_calls,
        Content.fromResponse, partsFromResponse, h]
  · intro c rest h
    constructor <;> simp [Content.fromResponse, partsFromResponse, h]

/-- A response carrying no candidates. -/
def emptyResp : GenerateContentResponse := ⟨[], none, none⟩

/-- A response with exactly one candidate holding a text part. -/
def oneCandResp : GenerateContentResponse :=
  ⟨[⟨Content.model [Part.text ("hi")], "STOP", 0, none⟩], none, none⟩

/-- C10 witness: the empty-candidates branch at emptyResp and the
candidate-0 branch at oneCandResp. -/
theorem C10_witness :
    (emptyResp.content = none ∧ emptyResp.get_function_calls = [] ∧
      Content.fromResponse emptyResp = none ∧ partsFromResponse emptyResp = none) ∧
    (Content.fromResponse oneCandResp = some (Content.model [Part.text ("hi")]) ∧
      partsFromResponse oneCandResp = some [Part.text ("hi")]) :=
  ⟨(C10_theorem emptyResp).1 rfl,
   (C10_theorem oneCandResp).2 ⟨Content.model [Part.text ("hi")], "STOP", 0, none⟩ [] rfl⟩

end GOx
